import Mathlib

/-!
Shallow embedding of the book-api service (src/main.go).

The embedding models the data-access core described in the spec:
* the Go structs `Book`, `Chapter` and the anonymous join-row struct
  `BookWithChapters` of `getBookByID`;
* the pure flat-row-to-nested-entity aggregation performed by
  `getBookByID` (lines 244-267 of main.go), with Go's nil-able slices
  modelled as `Option (List _)` (Go distinguishes a nil slice from an
  empty one, and `encoding/json` serialises nil as `null`);
* the HTTP handlers `getBooks` and `getBookByID` as functions from the
  nil-ness of the global `db` handle and an abstract query result to a
  response;
* the JSON serialisation performed by `json.NewEncoder(...).Encode`,
  over a small JSON value type, following the struct tags of main.go
  (`time.Time` values are abstracted as natural-number timestamps and
  serialised as numbers);
* the schema provisioner `initTables` as a function on an abstract
  schema state, with the `IF NOT EXISTS` guards made explicit.
-/

/-- Go's `sql.NullString`: a string together with a validity flag. -/
structure NullString where
  valid : Bool
  string : String
deriving DecidableEq, Repr

/-- Go's `sql.NullInt32`: an integer together with a validity flag.
The `int32` payload is modelled as an unbounded `Int`; the Go code only
converts it with the lossless `int(...)` conversion. -/
structure NullInt32 where
  valid : Bool
  int32 : Int
deriving DecidableEq, Repr

/-- The `Chapter` struct of main.go. `createdAt` abstracts `time.Time`
as a natural-number timestamp. -/
structure Chapter where
  id : String
  bookID : String
  title : String
  summary : String
  audioURL : String
  orderNum : Int
  createdAt : Nat
deriving DecidableEq, Repr

/-- The `Book` struct of main.go. The `Chapters []Chapter` field is a
nil-able Go slice, modelled as `Option (List Chapter)`: `none` is the
nil slice, `some l` a non-nil slice with elements `l`. -/
structure Book where
  id : String
  title : String
  author : String
  coverURL : String
  description : String
  year : String
  chapters : Option (List Chapter)
  createdAt : Nat
  updatedAt : Nat
deriving DecidableEq, Repr

/-- The anonymous row struct of `getBookByID`: an embedded `Book`
(scanned from the `b.*` columns; its `chapters` field carries the
`db:"-"` tag and stays nil) plus the nullable chapter columns of the
left outer join. -/
structure BookWithChapters where
  book : Book
  chapterID : NullString
  chapterTitle : NullString
  chapterSummary : NullString
  audioURL : NullString
  orderNum : NullInt32
deriving DecidableEq, Repr

/-- Go `append` on a nil-able slice: always returns a non-nil slice. -/
def goAppend (acc : Option (List Chapter)) (c : Chapter) : Option (List Chapter) :=
  some (acc.getD [] ++ [c])

/-- The `Chapter` literal built in the loop body of `getBookByID`
(lines 255-263 of main.go): chapter fields come from the row's nullable
columns, `BookID` is the URL parameter `bookID`, and `CreatedAt` is
`time.Now()`, passed in as `now`. -/
def rowChapter (bookID : String) (now : Nat) (row : BookWithChapters) : Chapter :=
  { id := row.chapterID.string
    bookID := bookID
    title := row.chapterTitle.string
    summary := row.chapterSummary.string
    audioURL := row.audioURL.string
    orderNum := row.orderNum.int32
    createdAt := now }

/-- One iteration of the chapter-building loop of `getBookByID`:
rows whose `chapter_id` is NULL (`Valid = false`) are skipped. -/
def chapterStep (bookID : String) (now : Nat)
    (acc : Option (List Chapter)) (row : BookWithChapters) : Option (List Chapter) :=
  if row.chapterID.valid then goAppend acc (rowChapter bookID now row) else acc

/-- The chapter-building loop of `getBookByID` (lines 249-265 of
main.go): `var chapters []Chapter` starts as the nil slice (`none`),
then every row with a non-null chapter id appends one chapter. -/
def buildChapters (bookID : String) (now : Nat) (rows : List BookWithChapters) :
    Option (List Chapter) :=
  rows.foldl (chapterStep bookID now) none

/-- The row aggregation of `getBookByID` (lines 244-267 of main.go):
an empty row sequence is "book not found" (`none`); otherwise the book
fields come from the first row (`book := rows[0].Book`) and the chapter
slice is rebuilt by the loop (`book.Chapters = chapters`). -/
def aggregate (bookID : String) (now : Nat) (rows : List BookWithChapters) :
    Option Book :=
  match rows with
  | [] => none
  | first :: _ => some { first.book with chapters := buildChapters bookID now rows }

/-- The chapter list of the aggregation result, as a plain list
(empty when the book is not found or the slice is nil). -/
def responseChapters (bookID : String) (now : Nat) (rows : List BookWithChapters) :
    List Chapter :=
  match aggregate bookID now rows with
  | none => []
  | some b => b.chapters.getD []

/-- The spec's description of the aggregation's chapter sequence:
one chapter per row whose chapter identifier is non-null, in row order
(section 4.3 of the spec). -/
def specChapters (bookID : String) (now : Nat) (rows : List BookWithChapters) :
    List Chapter :=
  (rows.filter (fun r => r.chapterID.valid)).map (rowChapter bookID now)

/-- The possible handler outcomes, one constructor per status the two
data handlers can produce (main.go lines 174-271). -/
inductive HandlerResult where
  | unavailable
  | queryError
  | notFound
  | okBook (body : Book)
  | okBooks (body : Option (List Book))
deriving DecidableEq, Repr

/-- The `getBooks` handler (lines 174-205 of main.go). `dbNonNil`
models `db != nil`; `queryResult` abstracts `db.Select`, whose payload
on success is the nil-able slice `var books []Book` (zero rows leave it
nil). The `len(books) == 0` branch replaces a nil or empty slice by the
non-nil empty slice `[]Book\x7b\x7d`. -/
def getBooks (dbNonNil : Bool) (queryResult : Except Unit (Option (List Book))) :
    HandlerResult :=
  if dbNonNil = false then .unavailable
  else
    match queryResult with
    | .error _ => .queryError
    | .ok books =>
        .okBooks (if (books.getD []).length = 0 then some [] else books)

/-- The `getBookByID` handler (lines 207-271 of main.go). `dbNonNil`
models `db != nil`, `bookID` the `chi.URLParam(r, "id")` value, `now`
the request time, and `queryResult` abstracts `db.Select` on the left
outer join. The `len(rows) == 0` check and the aggregation are the
`aggregate` function above. -/
def getBookByID (dbNonNil : Bool) (bookID : String) (now : Nat)
    (queryResult : Except Unit (List BookWithChapters)) : HandlerResult :=
  if dbNonNil = false then .unavailable
  else
    match queryResult with
    | .error _ => .queryError
    | .ok rows =>
        match aggregate bookID now rows with
        | none => .notFound
        | some b => .okBook b

/-- A minimal JSON value type for modelling `encoding/json` output. -/
inductive JsonValue where
  | null
  | str (s : String)
  | num (n : Int)
  | arr (elems : List JsonValue)
  | obj (fields : List (String × JsonValue))

/-- `encoding/json` on a `Chapter` value, following the struct tags. -/
def encodeChapter (c : Chapter) : JsonValue :=
  .obj [("id", .str c.id), ("bookId", .str c.bookID), ("title", .str c.title),
        ("summary", .str c.summary), ("audioUrl", .str c.audioURL),
        ("orderNum", .num c.orderNum), ("createdAt", .num (c.createdAt : Int))]

/-- `encoding/json` on a `[]Chapter` slice: a nil slice serialises as
`null`, a non-nil slice as an array. -/
def encodeChapterSlice (cs : Option (List Chapter)) : JsonValue :=
  match cs with
  | none => .null
  | some l => .arr (l.map encodeChapter)

/-- `encoding/json` on a `Book` value, following the struct tags. -/
def encodeBook (b : Book) : JsonValue :=
  .obj [("id", .str b.id), ("title", .str b.title), ("author", .str b.author),
        ("coverUrl", .str b.coverURL), ("description", .str b.description),
        ("year", .str b.year), ("chapters", encodeChapterSlice b.chapters),
        ("createdAt", .num (b.createdAt : Int)), ("updatedAt", .num (b.updatedAt : Int))]

/-- `encoding/json` on the `[]Book` slice written by `getBooks`. -/
def encodeBookSlice (bs : Option (List Book)) : JsonValue :=
  match bs with
  | none => .null
  | some l => .arr (l.map encodeBook)

/-- Field lookup in a JSON object. -/
def jsonField (v : JsonValue) (key : String) : Option JsonValue :=
  match v with
  | .obj fields => fields.lookup key
  | _ => none

/-! ### Schema provisioner (initTables, lines 100-150 of main.go) -/

/-- A table of the abstract schema: its name and its column
definitions as written in the DDL of main.go. -/
structure TableDef where
  name : String
  columns : List (String × String)
deriving DecidableEq, Repr

/-- An index of the abstract schema. -/
structure IndexDef where
  name : String
  table : String
  column : String
deriving DecidableEq, Repr

/-- The abstract schema state a provisioning run acts on. -/
structure Schema where
  tables : List TableDef
  indexes : List IndexDef
deriving DecidableEq, Repr

/-- Whether a table of the given name exists. -/
def hasTable (s : Schema) (n : String) : Bool :=
  s.tables.any (fun t => t.name == n)

/-- Whether an index of the given name exists. -/
def hasIndex (s : Schema) (n : String) : Bool :=
  s.indexes.any (fun i => i.name == n)

/-- `CREATE TABLE IF NOT EXISTS`: a no-op when a table of that name
already exists. -/
def createTableIfNotExists (s : Schema) (t : TableDef) : Schema :=
  if hasTable s t.name then s else { s with tables := s.tables ++ [t] }

/-- `CREATE INDEX IF NOT EXISTS`: a no-op when an index of that name
already exists. -/
def createIndexIfNotExists (s : Schema) (i : IndexDef) : Schema :=
  if hasIndex s i.name then s else { s with indexes := s.indexes ++ [i] }

/-- The `books` DDL of main.go (lines 102-113). -/
def booksTable : TableDef :=
  { name := "books"
    columns := [("id", "VARCHAR(36) PRIMARY KEY DEFAULT gen_random_uuid()"),
                ("title", "VARCHAR(255) NOT NULL"),
                ("author", "VARCHAR(255) NOT NULL"),
                ("description", "TEXT"),
                ("cover_url", "TEXT"),
                ("year", "VARCHAR(4)"),
                ("created_at", "TIMESTAMP DEFAULT NOW()"),
                ("updated_at", "TIMESTAMP DEFAULT NOW()")] }

/-- The `chapters` DDL of main.go (lines 116-126). -/
def chaptersTable : TableDef :=
  { name := "chapters"
    columns := [("id", "VARCHAR(36) PRIMARY KEY DEFAULT gen_random_uuid()"),
                ("book_id", "VARCHAR(36) REFERENCES books(id) ON DELETE CASCADE"),
                ("title", "VARCHAR(255) NOT NULL"),
                ("summary", "TEXT"),
                ("audio_url", "TEXT"),
                ("order_num", "INTEGER DEFAULT 0"),
                ("created_at", "TIMESTAMP DEFAULT NOW()")] }

/-- The author index of main.go (line 130). -/
def idxBooksAuthor : IndexDef :=
  { name := "idx_books_author", table := "books", column := "author" }

/-- The chapter book-id index of main.go (line 131). -/
def idxChaptersBookId : IndexDef :=
  { name := "idx_chapters_book_id", table := "chapters", column := "book_id" }

/-- `initTables` (lines 100-150 of main.go): the two guarded table
creations followed by the two guarded index creations, in source
order. -/
def initTables (s : Schema) : Schema :=
  let s1 := createTableIfNotExists s booksTable
  let s2 := createTableIfNotExists s1 chaptersTable
  let s3 := createIndexIfNotExists s2 idxBooksAuthor
  createIndexIfNotExists s3 idxChaptersBookId

/-! ### Concrete sample values used by witnesses and counterexamples -/

/-- A concrete book row as scanned from the `b.*` columns (the
embedded book's `chapters` field is nil, per the `db:"-"` tag). -/
def sampleBookRow : Book :=
  { id := "b1", title := "T", author := "A", coverURL := "", description := "",
    year := "2001", chapters := none, createdAt := 1, updatedAt := 2 }

/-- A join row for a book with zero chapters: all chapter columns are
NULL (Go's scan leaves the zero values behind the false flags). -/
def zeroChapterRow : BookWithChapters :=
  { book := sampleBookRow
    chapterID := { valid := false, string := "" }
    chapterTitle := { valid := false, string := "" }
    chapterSummary := { valid := false, string := "" }
    audioURL := { valid := false, string := "" }
    orderNum := { valid := false, int32 := 0 } }

/-- A join row carrying chapter `c1` with order position 1. -/
def chapterRow1 : BookWithChapters :=
  { book := sampleBookRow
    chapterID := { valid := true, string := "c1" }
    chapterTitle := { valid := true, string := "Ch1" }
    chapterSummary := { valid := false, string := "" }
    audioURL := { valid := false, string := "" }
    orderNum := { valid := true, int32 := 1 } }

/-- A join row carrying chapter `c2` with order position 2. -/
def chapterRow2 : BookWithChapters :=
  { book := sampleBookRow
    chapterID := { valid := true, string := "c2" }
    chapterTitle := { valid := true, string := "Ch2" }
    chapterSummary := { valid := false, string := "" }
    audioURL := { valid := false, string := "" }
    orderNum := { valid := true, int32 := 2 } }

/-! ### Helper lemmas -/

/-- Characterisation of the chapter-building loop from any starting
accumulator: it appends exactly the chapters of the valid rows, in row
order, and leaves the accumulator untouched (possibly nil) when no row
is valid. -/
theorem foldl_chapterStep (bookID : String) (now : Nat) (rows : List BookWithChapters) :
    ∀ acc : Option (List Chapter),
      rows.foldl (chapterStep bookID now) acc =
        if specChapters bookID now rows = [] then acc
        else some (acc.getD [] ++ specChapters bookID now rows) := by
  induction rows with
  | nil => intro acc; simp [specChapters]
  | cons r rs ih =>
      intro acc
      rw [List.foldl_cons]
      cases hv : r.chapterID.valid with
      | false =>
          have hstep : chapterStep bookID now acc r = acc := by
            simp [chapterStep, hv]
          have hspec : specChapters bookID now (r :: rs) = specChapters bookID now rs := by
            simp [specChapters, hv]
          rw [hstep, ih, hspec]
      | true =>
          have hstep : chapterStep bookID now acc r =
              some (acc.getD [] ++ [rowChapter bookID now r]) := by
            simp [chapterStep, hv, goAppend]
          have hspec : specChapters bookID now (r :: rs) =
              rowChapter bookID now r :: specChapters bookID now rs := by
            simp [specChapters, hv]
          rw [hstep, ih, hspec]
          by_cases h2 : specChapters bookID now rs = []
          · simp [h2]
          · simp [h2]

/-- The loop result: the nil slice when no row carries a chapter,
otherwise the non-nil slice of the valid rows' chapters in row order. -/
theorem buildChapters_eq (bookID : String) (now : Nat) (rows : List BookWithChapters) :
    buildChapters bookID now rows =
      if specChapters bookID now rows = [] then none
      else some (specChapters bookID now rows) := by
  have h := foldl_chapterStep bookID now rows none
  simpa [buildChapters] using h

/-- Viewed as a plain list, the loop result is exactly the spec's
filter-then-map chapter sequence. -/
theorem buildChapters_getD (bookID : String) (now : Nat) (rows : List BookWithChapters) :
    (buildChapters bookID now rows).getD [] = specChapters bookID now rows := by
  rw [buildChapters_eq]
  by_cases h : specChapters bookID now rows = [] <;> simp [h]

/-- The serialised book always carries a `chapters` field, holding the
serialisation of its chapter slice. -/
theorem jsonField_encodeBook_chapters (b : Book) :
    jsonField (encodeBook b) "chapters" = some (encodeChapterSlice b.chapters) := rfl

/-- `initTables` written as the nested application of its four steps. -/
theorem initTables_unfold (s : Schema) :
    initTables s =
      createIndexIfNotExists
        (createIndexIfNotExists
          (createTableIfNotExists (createTableIfNotExists s booksTable) chaptersTable)
          idxBooksAuthor)
        idxChaptersBookId := rfl

/-- After a guarded creation, the table exists. -/
theorem hasTable_create_self (s : Schema) (t : TableDef) :
    hasTable (createTableIfNotExists s t) t.name = true := by
  unfold createTableIfNotExists
  split
  · assumption
  · simp [hasTable, List.any_append]

/-- A guarded table creation never removes a table. -/
theorem hasTable_mono_table (s : Schema) (t : TableDef) (n : String)
    (h : hasTable s n = true) : hasTable (createTableIfNotExists s t) n = true := by
  unfold createTableIfNotExists
  split
  · exact h
  · simp only [hasTable] at h ⊢
    simp [List.any_append, h]

/-- A guarded index creation does not touch the tables. -/
theorem hasTable_createIndex (s : Schema) (i : IndexDef) (n : String) :
    hasTable (createIndexIfNotExists s i) n = hasTable s n := by
  unfold createIndexIfNotExists
  split
  · rfl
  · rfl

/-- After a guarded creation, the index exists. -/
theorem hasIndex_create_self (s : Schema) (i : IndexDef) :
    hasIndex (createIndexIfNotExists s i) i.name = true := by
  unfold createIndexIfNotExists
  split
  · assumption
  · simp [hasIndex, List.any_append]

/-- A guarded index creation never removes an index. -/
theorem hasIndex_mono_index (s : Schema) (i : IndexDef) (n : String)
    (h : hasIndex s n = true) : hasIndex (createIndexIfNotExists s i) n = true := by
  unfold createIndexIfNotExists
  split
  · exact h
  · simp only [hasIndex] at h ⊢
    simp [List.any_append, h]

/-- A guarded table creation is the identity when the table exists. -/
theorem createTableIfNotExists_eq_self (s : Schema) (t : TableDef)
    (h : hasTable s t.name = true) : createTableIfNotExists s t = s := by
  unfold createTableIfNotExists
  simp [h]

/-- A guarded index creation is the identity when the index exists. -/
theorem createIndexIfNotExists_eq_self (s : Schema) (i : IndexDef)
    (h : hasIndex s i.name = true) : createIndexIfNotExists s i = s := by
  unfold createIndexIfNotExists
  simp [h]

/-- A second provisioning run finds every object already present and
changes nothing. -/
theorem initTables_idem (s : Schema) : initTables (initTables s) = initTables s := by
  have hb : hasTable (initTables s) booksTable.name = true := by
    rw [initTables_unfold, hasTable_createIndex, hasTable_createIndex]
    exact hasTable_mono_table _ _ _ (hasTable_create_self s booksTable)
  have hc : hasTable (initTables s) chaptersTable.name = true := by
    rw [initTables_unfold, hasTable_createIndex, hasTable_createIndex]
    exact hasTable_create_self _ chaptersTable
  have hia : hasIndex (initTables s) idxBooksAuthor.name = true := by
    rw [initTables_unfold]
    exact hasIndex_mono_index _ _ _ (hasIndex_create_self _ idxBooksAuthor)
  have hib : hasIndex (initTables s) idxChaptersBookId.name = true := by
    rw [initTables_unfold]
    exact hasIndex_create_self _ idxChaptersBookId
  conv_lhs => rw [initTables_unfold]
  rw [createTableIfNotExists_eq_self _ _ hb, createTableIfNotExists_eq_self _ _ hc,
      createIndexIfNotExists_eq_self _ _ hia, createIndexIfNotExists_eq_self _ _ hib]

/-! ### Claims -/

/-- C1 (counterexample): the claim as stated is false. For a book that
exists with zero chapters (a single join row whose chapter identifier
is NULL), `getBookByID` responds 200 with the book, but the chapter
slice is the nil slice (`none`), and the JSON response serialises the
`chapters` field as `null`, not as the empty array: Go's
`var chapters []Chapter` stays nil when the loop appends nothing, and
`encoding/json` writes nil slices as `null`. -/
theorem C1_zero_chapters_counterexample :
    zeroChapterRow.chapterID.valid = false ∧
    getBookByID true "b1" 7 (Except.ok [zeroChapterRow]) = .okBook sampleBookRow ∧
    sampleBookRow.chapters = none ∧
    jsonField (encodeBook sampleBookRow) "chapters" = some JsonValue.null ∧
    JsonValue.null ≠ JsonValue.arr [] :=
  ⟨rfl, rfl, rfl, rfl, fun h => JsonValue.noConfusion h⟩

/-- C1 (amended): for a book that exists but has zero chapters (every
join row has a NULL chapter identifier), `getBookByID` responds 200
with the Book, constructs no chapter, and its chapter slice is the nil
slice, which the JSON response serialises as a `chapters` field holding
`null` (not an empty array). -/
theorem C1_zero_chapters_nil_slice (bookID : String) (now : Nat)
    (first : BookWithChapters) (rest : List BookWithChapters)
    (h : (first :: rest).filter (fun r => r.chapterID.valid) = []) :
    ∃ b, getBookByID true bookID now (Except.ok (first :: rest)) = .okBook b ∧
      b.chapters = none ∧ jsonField (encodeBook b) "chapters" = some JsonValue.null := by
  have hspec : specChapters bookID now (first :: rest) = [] := by
    unfold specChapters
    rw [h]
    rfl
  have hbc : buildChapters bookID now (first :: rest) = none := by
    rw [buildChapters_eq, if_pos hspec]
  refine ⟨{ first.book with chapters := buildChapters bookID now (first :: rest) }, rfl, ?_, ?_⟩
  · show buildChapters bookID now (first :: rest) = none
    exact hbc
  · rw [jsonField_encodeBook_chapters]
    show some (encodeChapterSlice (buildChapters bookID now (first :: rest))) = _
    rw [hbc]
    rfl

/-- C1 (witness): the amended statement at the concrete zero-chapter
row. -/
theorem C1_zero_chapters_nil_slice_witness :
    ([zeroChapterRow].filter (fun r => r.chapterID.valid) = []) ∧
    (∃ b, getBookByID true "b1" 7 (Except.ok [zeroChapterRow]) = .okBook b ∧
      b.chapters = none ∧ jsonField (encodeBook b) "chapters" = some JsonValue.null) :=
  ⟨by decide, C1_zero_chapters_nil_slice "b1" 7 zeroChapterRow [] (by decide)⟩

/-- C2: aggregation of an empty row sequence is NotFound, and
`getBookByID` maps an empty (error-free) join result to the 404
response, for every requested identifier. -/
theorem C2_empty_rows_not_found (bookID : String) (now : Nat) :
    aggregate bookID now [] = none ∧
    getBookByID true bookID now (Except.ok []) = .notFound :=
  ⟨rfl, rfl⟩

/-- C3: for every input row sequence, the chapter sequence produced by
the aggregation is exactly one chapter per row whose chapter identifier
is non-null, in row order, and no chapter for any null-chapter row:
it equals the filter-then-map sequence `specChapters`. -/
theorem C3_chapters_filter_map (bookID : String) (now : Nat)
    (rows : List BookWithChapters) :
    responseChapters bookID now rows = specChapters bookID now rows := by
  cases rows with
  | nil => rfl
  | cons first rest =>
      show (buildChapters bookID now (first :: rest)).getD [] = _
      exact buildChapters_getD bookID now (first :: rest)

/-- C4: if the join rows all carry a chapter (the N-chapter case) and
arrive sorted strictly ascending by order position (distinct positions,
as delivered by `ORDER BY c.order_num ASC`), then the aggregation
returns the book with a chapter sequence of the same length N, sorted
strictly ascending by order position. -/
theorem C4_sorted_chapters (bookID : String) (now : Nat) (first : BookWithChapters)
    (rest : List BookWithChapters)
    (hvalid : ∀ r ∈ first :: rest, r.chapterID.valid = true)
    (hsorted : (first :: rest).Pairwise (fun a b => a.orderNum.int32 < b.orderNum.int32)) :
    ∃ b, aggregate bookID now (first :: rest) = some b ∧
      (b.chapters.getD []).length = (first :: rest).length ∧
      (b.chapters.getD []).Pairwise (fun a b => a.orderNum < b.orderNum) := by
  have hfilter : (first :: rest).filter (fun r => r.chapterID.valid) = first :: rest :=
    List.filter_eq_self.mpr hvalid
  have hspec : specChapters bookID now (first :: rest) =
      (first :: rest).map (rowChapter bookID now) := by
    rw [specChapters, hfilter]
  refine ⟨_, rfl, ?_, ?_⟩
  · show ((buildChapters bookID now (first :: rest)).getD []).length = _
    rw [buildChapters_getD, hspec, List.length_map]
  · show ((buildChapters bookID now (first :: rest)).getD []).Pairwise _
    rw [buildChapters_getD, hspec, List.pairwise_map]
    exact hsorted

/-- C4 (witness): the sortedness statement at two concrete rows with
order positions 1 and 2. -/
theorem C4_sorted_chapters_witness :
    (∀ r ∈ [chapterRow1, chapterRow2], r.chapterID.valid = true) ∧
    ([chapterRow1, chapterRow2].Pairwise (fun a b => a.orderNum.int32 < b.orderNum.int32)) ∧
    (∃ b, aggregate "b1" 5 (chapterRow1 :: [chapterRow2]) = some b ∧
      (b.chapters.getD []).length = (chapterRow1 :: [chapterRow2]).length ∧
      (b.chapters.getD []).Pairwise (fun a b => a.orderNum < b.orderNum)) :=
  ⟨by decide, by decide, C4_sorted_chapters "b1" 5 chapterRow1 [chapterRow2] (by decide) (by decide)⟩

/-- C5 (code bug, evaluation): the same stored row aggregated at two
different request times yields two different chapter creation
timestamps, each equal to the request time, so the returned timestamp
is the request time, not the stored chapter creation time (which the
join does not even select). -/
theorem C5_timestamp_is_request_time :
    (responseChapters "b1" 100 [chapterRow1]).map (fun c => c.createdAt) = [100] ∧
    (responseChapters "b1" 200 [chapterRow1]).map (fun c => c.createdAt) = [200] :=
  ⟨rfl, rfl⟩

/-- C6: for every non-empty row sequence, the book fields of the
aggregation result (id, title, author, description, cover, year and
both timestamps) are those of the first row. -/
theorem C6_book_fields_from_first_row (bookID : String) (now : Nat)
    (first : BookWithChapters) (rest : List BookWithChapters) :
    ∃ b, aggregate bookID now (first :: rest) = some b ∧
      b.id = first.book.id ∧ b.title = first.book.title ∧
      b.author = first.book.author ∧ b.description = first.book.description ∧
      b.coverURL = first.book.coverURL ∧ b.year = first.book.year ∧
      b.createdAt = first.book.createdAt ∧ b.updatedAt = first.book.updatedAt :=
  ⟨_, rfl, rfl, rfl, rfl, rfl, rfl, rfl, rfl, rfl⟩

/-- C7: `getBooks` on an error-free empty result (the nil slice left by
a zero-row query) responds with the 200 branch carrying the non-nil
empty slice, whose JSON serialisation is the empty array. -/
theorem C7_list_books_empty_ok :
    getBooks true (Except.ok none) = .okBooks (some []) ∧
    encodeBookSlice (some []) = JsonValue.arr [] :=
  ⟨rfl, rfl⟩

/-- C8: with no configured pool (`db == nil`), both handlers answer
503 Service Unavailable whatever the backend would have answered (the
check precedes any query), and, being total functions, never crash. -/
theorem C8_degraded_mode_unavailable (q1 : Except Unit (Option (List Book)))
    (q2 : Except Unit (List BookWithChapters)) (bookID : String) (now : Nat) :
    getBooks false q1 = .unavailable ∧
    getBookByID false bookID now q2 = .unavailable :=
  ⟨rfl, rfl⟩

/-- C9: invoking the schema provisioner any positive number of times
leaves the schema in the same state as a single invocation. -/
theorem C9_initTables_idempotent (s : Schema) (n : Nat) :
    initTables^[n + 1] s = initTables s := by
  induction n with
  | zero => rw [Function.iterate_one]
  | succ k ih => rw [Function.iterate_succ_apply', ih, initTables_idem]

/-- C10: every chapter of the response carries the requested book
identifier (the URL parameter), for every input row sequence. -/
theorem C10_chapter_bookID_from_request (bookID : String) (now : Nat)
    (rows : List BookWithChapters) :
    (responseChapters bookID now rows).all (fun c => c.bookID == bookID) = true := by
  cases rows with
  | nil => rfl
  | cons first rest =>
      show ((buildChapters bookID now (first :: rest)).getD []).all _ = true
      rw [buildChapters_getD]
      unfold specChapters
      simp only [List.all_eq_true, List.mem_map]
      rintro c ⟨r, hr, rfl⟩
      simp [rowChapter]
